import Mathlib

/-!
Shallow embedding of the Qudora server helper
(`runtime/cudaq/platform/default/rest/helpers/qudora/QudoraServerHelper.cpp`)
and proofs about its credential resolution, job-payload construction,
status polling, URL construction and result decoding.
-/

namespace Qudora

/-- Modelled from the spec: `cudaq::split` (declared in `cudaq/utils/cudaq_utils.h`,
not part of the sources at hand) splits a string at a delimiter in the way of a
`std::getline` loop: an empty input yields no items, a trailing delimiter yields
no trailing empty item, and every interior delimiter separates two items. -/
def splitChars (delim : Char) : List Char → List (List Char)
  | [] => []
  | c :: cs =>
    if c = delim then [] :: splitChars delim cs
    else
      match splitChars delim cs with
      | [] => [[c]]
      | item :: rest => (c :: item) :: rest

/-- String-level wrapper around `splitChars`. -/
def splitCpp (s : String) (delim : Char) : List String :=
  (splitChars delim s.data).map List.asString

/-- Characters accepted by C `isspace` in the default locale. -/
def isSpaceC (c : Char) : Bool :=
  c = ' ' || c = '\t' || c = '\n' || c = '\x0b' || c = '\x0c' || c = '\r'

/-- Modelled from the spec: `cudaq::trim` (declared in `cudaq/utils/cudaq_utils.h`,
not part of the sources at hand) removes surrounding whitespace from both sides. -/
def trimCpp (s : String) : String :=
  (((s.data.dropWhile isSpaceC).reverse.dropWhile isSpaceC).reverse).asString

/-- The three credential strings threaded by reference through
`findApiKeyInFileQudora` and `searchAPIKeyQudora`. -/
structure Creds where
  apiKey : String
  refreshKey : String
  timeStr : String
deriving Repr, DecidableEq

/-- Fresh (default-constructed) credential strings. -/
def cEmpty : Creds := ⟨"", "", ""⟩

/-- One iteration of the line loop of `findApiKeyInFileQudora`: split the line
at colons, require exactly two parts, trim both, and dispatch on the key. -/
def processLine (path : String) (st : Creds) (l : String) : Except String Creds :=
  let kv := splitCpp l ':'
  if h : kv.length = 2 then
    let k := trimCpp (kv.get ⟨0, by omega⟩)
    let v := trimCpp (kv.get ⟨1, by omega⟩)
    if k = "key" then .ok { st with apiKey := v }
    else if k = "refresh" then .ok { st with refreshKey := v }
    else if k = "time" then .ok { st with timeStr := v }
    else .error ("Unknown key in configuration file: " ++ k ++ ".")
  else
    .error ("Ill-formed configuration file (" ++ path ++
      "). Key-value pairs must be in `<key> : <value>` format. (One per line)")

/-- Final validation of `findApiKeyInFileQudora`: reject an empty API key,
then an empty refresh key (the `time` key is not required). -/
def checkCreds (path : String) (st : Creds) : Except String Creds :=
  if st.apiKey = "" then
    .error ("Empty API key in configuration file (" ++ path ++ ").")
  else if st.refreshKey = "" then
    .error ("Empty refresh key in configuration file (" ++ path ++ ").")
  else
    .ok st

/-- Embedding of `findApiKeyInFileQudora`: split the file contents into lines,
process each line, then reject an empty API key or an empty refresh key.
The `contents` argument stands for the text read from `path`. -/
def findApiKeyInFileQudora (contents path : String) (st : Creds) :
    Except String Creds :=
  (((splitCpp contents '\n').foldlM (processLine path) st)).bind (checkCreds path)

/-- Result of `searchAPIKeyQudora`: the (possibly updated) credential strings
and the returned `hwConfig` path. -/
structure SearchResult where
  creds : Creds
  hwConfig : String
deriving Repr, DecidableEq

/-- Embedding of `searchAPIKeyQudora`. `env` is the value of the
`CUDAQ_QUDORA_CREDENTIALS` environment variable, `home` the value of `HOME`,
and `fs` maps a path to the contents of the file there (`none` when
`cudaq::fileExists` is false). The branch structure follows the source:
the environment value is copied into the key verbatim; a non-empty
caller-specified path is only recorded in `hwConfig`; otherwise the default
file is parsed when it exists and a fatal error is raised when it does not. -/
def searchAPIKeyQudora (env : Option String) (home : String)
    (fs : String → Option String) (st : Creds) (userSpecifiedConfig : String) :
    Except String SearchResult :=
  match env with
  | some creds => .ok ⟨{ st with apiKey := creds }, creds⟩
  | none =>
    if userSpecifiedConfig ≠ "" then
      .ok ⟨st, userSpecifiedConfig⟩
    else
      let hwConfig := home ++ "/.qudora_config"
      match fs hwConfig with
      | some contents =>
        (findApiKeyInFileQudora contents hwConfig st).map (⟨·, hwConfig⟩)
      | none =>
        .error "Cannot find Qudora Config file with credentials (~/.qudora_config)."

/-- Modelled from the spec: a `KernelExecution` / CircuitProgram as the spec
describes it (`{name: string, shots: integer > 0, code: binary payload}`);
the type itself is declared in `common/ServerHelper.h`, outside the sources
at hand. -/
structure CircuitProgram where
  name : String
  shots : Nat
  code : String
deriving Repr, DecidableEq

/-- One vendor-schema job submission document, as built by
`QudoraServerHelper::createJob`: `backend_settings = none` models the JSON
`nullptr`. -/
structure JobMessage where
  name : String
  language : String
  shots : List Nat
  target : String
  input_data : List String
  backend_settings : Option String
deriving Repr, DecidableEq

/-- Embedding of the message-building loop of `QudoraServerHelper::createJob`.
`configShots` is the helper's `shots` member (set by
`parseConfigForCommonParams`, outside the sources at hand) and `machine`
its `machine` member; note that the source writes `j["shots"] = {shots,}`,
the member, for every circuit. -/
def createJob (machine : String) (configShots : Nat)
    (circuitCodes : List CircuitProgram) : List JobMessage :=
  circuitCodes.map fun c =>
    { name := c.name
      language := "QIR_BITCODE"
      shots := [configShots]
      target := machine
      input_data := [c.code]
      backend_settings := none }

/-- One record of a polling response: `status` and the `result` array of
JSON-encoded histogram strings. -/
structure StatusRecord where
  status : String
  result : List String
deriving Repr, DecidableEq

/-- Embedding of `QudoraServerHelper::jobIsDone`: inspect the first record's
`status`; `Failed` and the three cancellation statuses raise, `Completed`
yields `true`, everything else `false`. An empty response models the
`nlohmann::json` type error thrown by `getJobResponse[0]["status"]`. -/
def jobIsDone (getJobResponse : List StatusRecord) : Except String Bool :=
  match getJobResponse.head? with
  | none => .error "[json.exception.type_error] cannot read status of an empty response"
  | some rec =>
    let status := rec.status
    if status = "Failed" then
      .error "Job failed to execute. See Qudora Cloud for more details."
    else if status = "Canceled" ∨ status = "Deleted" ∨ status = "Cancelling" then
      .error "Job was cancelled."
    else
      .ok (status = "Completed")

/-- Embedding of `QudoraServerHelper::initialize`'s handling of the `url`
config entry: the default base URL, overridden by the given value with a
trailing `/` appended when missing (`baseUrl.ends_with("/")`). -/
def initializeBaseUrl (url : Option String) : String :=
  match url with
  | none => "https://api.qudora.com/jobs/"
  | some u => if u.data.getLast? = some '/' then u else u ++ "/"

/-- Embedding of `QudoraServerHelper::constructGetJobPath(std::string&)`. -/
def constructGetJobPath (baseUrl jobId : String) : String :=
  baseUrl ++ "?job_id=" ++ jobId ++ "&include_results=True"

/-- Embedding of `QudoraServerHelper::extractJobId`: the id is
`to_string(postResponse)`, the stringification of the entire response body.
`toStr` stands for `nlohmann::to_string`, external library code. -/
def extractJobId {M : Type} (toStr : M → String) (postResponse : M) : String :=
  toStr postResponse

/-- Embedding of `QudoraServerHelper::constructGetJobPath(ServerMessage&)`:
extract the job id from the response, then build the polling URL. -/
def constructGetJobPathFromResponse {M : Type} (toStr : M → String)
    (baseUrl : String) (postResponse : M) : String :=
  constructGetJobPath baseUrl (extractJobId toStr postResponse)

/-- Embedding of `QudoraServerHelper::generateRequestHeader`: resolve
credentials into fresh local strings, then build the four headers. -/
def generateRequestHeader (env : Option String) (home : String)
    (fs : String → Option String) (userSpecifiedCredentials : String) :
    Except String (List (String × String)) :=
  (searchAPIKeyQudora env home fs cEmpty userSpecifiedCredentials).map fun r =>
    [("Authorization", "Bearer " ++ r.creds.apiKey),
     ("Content-Type", "application/json"),
     ("Connection", "keep-alive"),
     ("Accept", "*/*")]

/-- Insert-or-assign into an association list, modelling
`reg_counts[bitstring] = count` on a `CountsDictionary`. -/
def insertCount (m : List (String × Nat)) (k : String) (v : Nat) :
    List (String × Nat) :=
  match m with
  | [] => [(k, v)]
  | (k', v') :: rest =>
    if k' = k then (k', v) :: rest else (k', v') :: insertCount rest k v

/-- The loop of `QudoraServerHelper::processResults` building `reg_counts`
from the items of the parsed result JSON. -/
def buildCounts (items : List (String × Nat)) : List (String × Nat) :=
  items.foldl (fun m kv => insertCount m kv.1 kv.2) []

/-- Embedding of `QudoraServerHelper::processResults`: read
`postJobResponse[0]["result"][0]`, JSON-parse it (`decode` stands for
`nlohmann::json::parse` followed by `.items()`, external library code),
build the counts dictionary and wrap it as the single execution result
under register name `"r00000"`. `none` models the `nlohmann` exceptions
on a missing first record or empty `result` array. -/
def processResults (decode : String → List (String × Nat))
    (postJobResponse : List StatusRecord) :
    Option (List (List (String × Nat) × String)) :=
  match postJobResponse.head? with
  | none => none
  | some rec =>
    match rec.result.head? with
    | none => none
    | some results_str => some [(buildCounts (decode results_str), "r00000")]

/-! ## Theorems about credential resolution -/

/-- C4: when `CUDAQ_QUDORA_CREDENTIALS` is set, its entire value becomes the
API key verbatim, no file is parsed, the refresh key (and time string) are
left unchanged, and the result does not depend on the home directory, the
file system, or any caller-specified path. -/
theorem searchAPIKey_env_verbatim (v home home2 : String)
    (fs fs2 : String → Option String) (st : Creds) (cfg cfg2 : String) :
    searchAPIKeyQudora (some v) home fs st cfg =
      .ok ⟨⟨v, st.refreshKey, st.timeStr⟩, v⟩ ∧
    searchAPIKeyQudora (some v) home fs st cfg =
      searchAPIKeyQudora (some v) home2 fs2 st cfg2 :=
  ⟨rfl, rfl⟩

/-- A concrete file system mapping exactly one path to a small config file. -/
def fsDemo : String → Option String := fun p =>
  if p = "/tmp/cfg" then some "key : A\nrefresh : B" else none

/-- C1: with the environment override unset and a non-empty caller-specified
credentials path, `searchAPIKeyQudora` only records the path in `hwConfig`
and returns with the credential strings untouched — it never invokes
`findApiKeyInFileQudora` on that path, although parsing the file there
would have produced apiKey `A` and refreshKey `B`. -/
theorem searchAPIKey_userPath_not_parsed :
    searchAPIKeyQudora none "/home/u" fsDemo cEmpty "/tmp/cfg" =
      .ok ⟨⟨"", "", ""⟩, "/tmp/cfg"⟩ ∧
    findApiKeyInFileQudora "key : A\nrefresh : B" "/tmp/cfg" cEmpty =
      .ok ⟨"A", "B", ""⟩ :=
  ⟨rfl, rfl⟩

/-- C8: with the environment override unset and no caller-specified path,
the resolver targets `<home>/.qudora_config`: a missing file is a fatal
error naming the config file, and an existing file is parsed with
`findApiKeyInFileQudora`. -/
theorem searchAPIKey_default_file (home : String) (fs : String → Option String)
    (st : Creds) :
    (fs (home ++ "/.qudora_config") = none →
      searchAPIKeyQudora none home fs st "" =
        .error "Cannot find Qudora Config file with credentials (~/.qudora_config).") ∧
    (∀ contents, fs (home ++ "/.qudora_config") = some contents →
      searchAPIKeyQudora none home fs st "" =
        (findApiKeyInFileQudora contents (home ++ "/.qudora_config") st).map
          (⟨·, home ++ "/.qudora_config"⟩)) := by
  constructor
  · intro h
    unfold searchAPIKeyQudora
    simp [h]
  · intro contents h
    unfold searchAPIKeyQudora
    simp [h]

/-- Witness for C8 at concrete inputs: a file system with no files at all
yields the fatal missing-file error, and a file system holding a well-formed
default config file yields its parsed credentials. -/
theorem searchAPIKey_default_file_witness :
    searchAPIKeyQudora none "/h" (fun _ => none) cEmpty "" =
      .error "Cannot find Qudora Config file with credentials (~/.qudora_config)." ∧
    searchAPIKeyQudora none "/h"
      (fun p => if p = "/h/.qudora_config" then some "key : A\nrefresh : B" else none)
      cEmpty "" =
      .ok ⟨⟨"A", "B", ""⟩, "/h/.qudora_config"⟩ := by
  constructor
  · exact (searchAPIKey_default_file "/h" (fun _ => none) cEmpty).1 rfl
  · have h := (searchAPIKey_default_file "/h"
      (fun p => if p = "/h/.qudora_config" then some "key : A\nrefresh : B" else none)
      cEmpty).2 "key : A\nrefresh : B" (by simp)
    rw [h]
    rfl

/-! ## Theorems about config-file parsing -/

/-- C5: a config file with lines `key : ABC123` and `refresh : XYZ789`
parses to apiKey `ABC123` and refreshKey `XYZ789` (both sides trimmed); a
line `foo : bar` raises the unknown-key error naming `foo`; a line that does
not split at colons into exactly two parts raises the ill-formed error
naming the file. -/
theorem findApiKeyInFile_parse (path : String) :
    findApiKeyInFileQudora "key : ABC123\nrefresh : XYZ789" path cEmpty =
      .ok ⟨"ABC123", "XYZ789", ""⟩ ∧
    findApiKeyInFileQudora "key : ABC123\nrefresh : XYZ789\nfoo : bar" path cEmpty =
      .error "Unknown key in configuration file: foo." ∧
    findApiKeyInFileQudora "key : ABC123\nnot-a-pair" path cEmpty =
      .error ("Ill-formed configuration file (" ++ path ++
        "). Key-value pairs must be in `<key> : <value>` format. (One per line)") ∧
    (∀ st l, (splitCpp l ':').length ≠ 2 →
      processLine path st l =
        .error ("Ill-formed configuration file (" ++ path ++
          "). Key-value pairs must be in `<key> : <value>` format. (One per line)")) := by
  refine ⟨rfl, rfl, rfl, fun st l h => ?_⟩
  unfold processLine
  rw [dif_neg h]

/-- Witness for C5 at a concrete path: the round-trip parse and the
ill-formed rejection of a colon-free line. -/
theorem findApiKeyInFile_parse_witness :
    findApiKeyInFileQudora "key : ABC123\nrefresh : XYZ789" "/tmp/q" cEmpty =
      .ok ⟨"ABC123", "XYZ789", ""⟩ ∧
    processLine "/tmp/q" cEmpty "nocolon" =
      .error "Ill-formed configuration file (/tmp/q). Key-value pairs must be in `<key> : <value>` format. (One per line)" := by
  constructor
  · exact (findApiKeyInFile_parse "/tmp/q").1
  · have h := (findApiKeyInFile_parse "/tmp/q").2.2.2 cEmpty "nocolon" (by decide)
    rw [h]
    rfl

/-- C6: whenever the line loop succeeds but leaves the API key empty,
`findApiKeyInFileQudora` raises the empty-API-key error naming the file;
when the API key is non-empty but the refresh key is empty, it raises the
empty-refresh-key error naming the file. -/
theorem findApiKeyInFile_empty_reject (contents path : String) (st st2 : Creds)
    (hfold : (splitCpp contents '\n').foldlM (processLine path) st = .ok st2) :
    (st2.apiKey = "" →
      findApiKeyInFileQudora contents path st =
        .error ("Empty API key in configuration file (" ++ path ++ ").")) ∧
    (st2.apiKey ≠ "" → st2.refreshKey = "" →
      findApiKeyInFileQudora contents path st =
        .error ("Empty refresh key in configuration file (" ++ path ++ ").")) := by
  have key : findApiKeyInFileQudora contents path st = checkCreds path st2 := by
    unfold findApiKeyInFileQudora
    rw [hfold]
    rfl
  constructor
  · intro h1
    rw [key]
    unfold checkCreds
    rw [if_pos h1]
  · intro h1 h2
    rw [key]
    unfold checkCreds
    rw [if_neg h1, if_pos h2]

/-- Witness for C6: the file `key : ` (empty value) is rejected with the
empty-API-key error, and a file with a valid key but a whitespace-only
refresh value is rejected with the empty-refresh-key error. -/
theorem findApiKeyInFile_empty_reject_witness :
    findApiKeyInFileQudora "key : " "/tmp/q" cEmpty =
      .error "Empty API key in configuration file (/tmp/q)." ∧
    findApiKeyInFileQudora "key : A\nrefresh :  " "/tmp/q" cEmpty =
      .error "Empty refresh key in configuration file (/tmp/q)." := by
  constructor
  · have h := (findApiKeyInFile_empty_reject "key : " "/tmp/q" cEmpty
      ⟨"", "", ""⟩ rfl).1 rfl
    rw [h]
    rfl
  · have h := (findApiKeyInFile_empty_reject "key : A\nrefresh :  " "/tmp/q" cEmpty
      ⟨"A", "", ""⟩ rfl).2 (by decide) rfl
    rw [h]
    rfl

/-! ## Theorems about status polling -/

/-- C2: `jobIsDone` inspects only the first record of the polling response:
status `Failed` raises the fatal error pointing at the Qudora Cloud
dashboard; `Canceled`, `Deleted` and `Cancelling` raise the cancellation
error; `Completed` yields `done = true`; any other status yields
`done = false`; and the records past the first never influence the
outcome. -/
theorem jobIsDone_classification (rec : StatusRecord)
    (rest rest2 : List StatusRecord) :
    (rec.status = "Failed" →
      jobIsDone (rec :: rest) =
        .error "Job failed to execute. See Qudora Cloud for more details.") ∧
    (rec.status = "Canceled" ∨ rec.status = "Deleted" ∨ rec.status = "Cancelling" →
      jobIsDone (rec :: rest) = .error "Job was cancelled.") ∧
    (rec.status = "Completed" → jobIsDone (rec :: rest) = .ok true) ∧
    (rec.status ≠ "Failed" → rec.status ≠ "Canceled" → rec.status ≠ "Deleted" →
      rec.status ≠ "Cancelling" → rec.status ≠ "Completed" →
      jobIsDone (rec :: rest) = .ok false) ∧
    jobIsDone (rec :: rest) = jobIsDone (rec :: rest2) := by
  refine ⟨fun h => ?_, fun h => ?_, fun h => ?_, fun h1 h2 h3 h4 h5 => ?_, rfl⟩
  · simp [jobIsDone, h]
  · rcases h with h | h | h <;> simp [jobIsDone, h]
  · simp [jobIsDone, h]
  · simp [jobIsDone, h1, h2, h3, h4, h5]

/-- Witness for C2 at the spec's concrete responses: `Failed`, `Canceled`,
`Completed` and `Running` first records. -/
theorem jobIsDone_classification_witness :
    jobIsDone [⟨"Failed", []⟩] =
      .error "Job failed to execute. See Qudora Cloud for more details." ∧
    jobIsDone [⟨"Canceled", []⟩] = .error "Job was cancelled." ∧
    jobIsDone [⟨"Completed", []⟩] = .ok true ∧
    jobIsDone [⟨"Running", []⟩] = .ok false :=
  ⟨(jobIsDone_classification ⟨"Failed", []⟩ [] []).1 rfl,
   (jobIsDone_classification ⟨"Canceled", []⟩ [] []).2.1 (Or.inl rfl),
   (jobIsDone_classification ⟨"Completed", []⟩ [] []).2.2.1 rfl,
   (jobIsDone_classification ⟨"Running", []⟩ [] []).2.2.2.1
     (by decide) (by decide) (by decide) (by decide) (by decide)⟩

/-! ## Theorems about job-payload construction -/

/-- C3 counterexample: submitting a circuit whose own shot count is 5 while
the helper's configured shot count is 7 produces a document whose `shots`
sequence is `[7]` — the configured count, not the circuit's own count
`[5]`. -/
theorem createJob_shots_counterexample :
    createJob "QVLS-Q1" 7 [⟨"k", 5, "c"⟩] =
      [{ name := "k", language := "QIR_BITCODE", shots := [7],
         target := "QVLS-Q1", input_data := ["c"],
         backend_settings := none }] ∧
    ([7] : List Nat) ≠ [5] :=
  ⟨rfl, by decide⟩

/-- C3 amended: `createJob` produces one document per circuit in batch
order; document `i` carries circuit `i`'s name and compiled payload (the
sole `input_data` entry), the fixed language tag `QIR_BITCODE`, the target
machine, a null `backend_settings`, and as sole `shots` entry the helper's
configured shot count — the same value for every document, not the
circuit's own count. -/
theorem createJob_amended (machine : String) (configShots : Nat)
    (circuits : List CircuitProgram) (i : Nat) (hi : i < circuits.length) :
    (createJob machine configShots circuits).length = circuits.length ∧
    (createJob machine configShots circuits)[i]? = some
      { name := circuits[i].name, language := "QIR_BITCODE",
        shots := [configShots], target := machine,
        input_data := [circuits[i].code], backend_settings := none } := by
  constructor
  · simp [createJob]
  · simp [createJob, List.getElem?_map, List.getElem?_eq_getElem hi]

/-- Witness for the amended C3 at a concrete two-circuit batch. -/
theorem createJob_amended_witness :
    (createJob "QVLS-Q1" 7 [⟨"k1", 5, "c1"⟩, ⟨"k2", 3, "c2"⟩]).length = 2 ∧
    (createJob "QVLS-Q1" 7 [⟨"k1", 5, "c1"⟩, ⟨"k2", 3, "c2"⟩])[1]? = some
      { name := "k2", language := "QIR_BITCODE", shots := [7],
        target := "QVLS-Q1", input_data := ["c2"],
        backend_settings := none } :=
  createJob_amended "QVLS-Q1" 7 [⟨"k1", 5, "c1"⟩, ⟨"k2", 3, "c2"⟩] 1 (by decide)

/-! ## Theorems about URL construction -/

/-- C7: a configured `url` without a trailing slash is normalized by
appending `/`; the polling URL is the normalized base followed by
`?job_id=<id>&include_results=True`; and when the id comes from a
submission response it is exactly the stringified entire response body. -/
theorem url_normalization (url jobId : String) (M : Type) (toStr : M → String)
    (r : M) (h : url.data.getLast? ≠ some '/') :
    initializeBaseUrl (some url) = url ++ "/" ∧
    constructGetJobPath (initializeBaseUrl (some url)) jobId =
      url ++ "/" ++ "?job_id=" ++ jobId ++ "&include_results=True" ∧
    constructGetJobPathFromResponse toStr (initializeBaseUrl (some url)) r =
      url ++ "/" ++ "?job_id=" ++ toStr r ++ "&include_results=True" := by
  have h1 : initializeBaseUrl (some url) = url ++ "/" := by
    show (if url.data.getLast? = some '/' then url else url ++ "/") = url ++ "/"
    rw [if_neg h]
  exact ⟨h1, by rw [h1]; rfl, by rw [h1]; rfl⟩

/-- Witness for C7 at the spec's concrete inputs: base URL
`https://api.qudora.com/jobs` and job id `abc`. -/
theorem url_normalization_witness :
    initializeBaseUrl (some "https://api.qudora.com/jobs") =
      "https://api.qudora.com/jobs/" ∧
    constructGetJobPath (initializeBaseUrl (some "https://api.qudora.com/jobs")) "abc" =
      "https://api.qudora.com/jobs/?job_id=abc&include_results=True" := by
  have h := url_normalization "https://api.qudora.com/jobs" "abc" String id "x"
    (by decide)
  exact ⟨by rw [h.1]; rfl, by rw [h.2.1]; rfl⟩

/-! ## Theorems about request headers -/

/-- C9: header generation is deterministic in the environment variable,
home directory, file system and configured credentials path, so two calls
with those unchanged yield identical header maps; whenever credential
resolution succeeds, the headers are exactly the four entries
Authorization `Bearer <apiKey>`, Content-Type, Connection and Accept. -/
theorem generateRequestHeader_idempotent (env : Option String) (home : String)
    (fs : String → Option String) (cred : String) :
    generateRequestHeader env home fs cred =
      generateRequestHeader env home fs cred ∧
    (∀ r, searchAPIKeyQudora env home fs cEmpty cred = .ok r →
      generateRequestHeader env home fs cred = .ok
        [("Authorization", "Bearer " ++ r.creds.apiKey),
         ("Content-Type", "application/json"),
         ("Connection", "keep-alive"),
         ("Accept", "*/*")]) := by
  refine ⟨rfl, fun r h => ?_⟩
  unfold generateRequestHeader
  rw [h]
  rfl

/-- Witness for C9 with the environment override set to `K`: both the
repeated-call equality and the four concrete header entries. -/
theorem generateRequestHeader_idempotent_witness :
    generateRequestHeader (some "K") "/h" (fun _ => none) "" = .ok
      [("Authorization", "Bearer K"),
       ("Content-Type", "application/json"),
       ("Connection", "keep-alive"),
       ("Accept", "*/*")] := by
  have h := (generateRequestHeader_idempotent (some "K") "/h" (fun _ => none) "").2
    ⟨⟨"K", "", ""⟩, "K"⟩ rfl
  rw [h]
  rfl

/-! ## Theorems about result decoding -/

/-- C10: for any decodable completed response, `processResults` produces
exactly one execution result, built from the first element of the first
record's `result` array under the fixed register name `r00000`; the other
result strings, the other records, and even the status value never
influence the outcome. -/
theorem processResults_first_only (decode : String → List (String × Nat))
    (status status2 : String) (s : String) (ss ss2 : List String)
    (rest rest2 : List StatusRecord) :
    processResults decode (⟨status, s :: ss⟩ :: rest) =
      some [(buildCounts (decode s), "r00000")] ∧
    processResults decode (⟨status, s :: ss⟩ :: rest) =
      processResults decode (⟨status2, s :: ss2⟩ :: rest2) :=
  ⟨rfl, rfl⟩

end Qudora
